import Mathlib

/-
Shallow embedding of the excerpted Pyomo source files:
  pyomo/solvers/plugins/solvers/xpress_persistent.py
  pyomo/contrib/gdpopt/config_options.py
  pyomo/contrib/appsi/plugins.py
  pyomo/contrib/pynumero/algorithms/solvers/scipy_solvers.py
Python runtime values that matter to the code are modelled by small inductive
types; Python exceptions become an explicit error component; mutation of the
wrapper objects and the vendor (Xpress) model becomes explicit state passing,
with every call forwarded to the vendor API recorded in a trace.
-/

namespace Pyomo

/-- Python exceptions that the embedded code can raise.  A NameError carries
the unbound name, a ValueError carries (a prefix of) its message. -/
inductive PyErr where
  | nameError (missing : String)
  | valueError (msg : String)
  | keyError
  deriving Repr, DecidableEq

/-- A Python numeric-ish value as the Xpress wrapper code discriminates them:
a value whose class is in native_numeric_types, a non-native non-expression
NumericValue (e.g. a Param) carrying the number that value() extracts, or an
expression object (is_expression_type() true) carrying the number that
EXPR.evaluate_expression would produce. -/
inductive PyNum where
  | native (x : Int)
  | param (id : Nat) (v : Int)
  | exprVal (id : Nat) (v : Int)
  deriving Repr, DecidableEq

/-- val.__class__ in native_numeric_types -/
def PyNum.isNative : PyNum → Bool
  | .native _ => true
  | _ => false

/-- val.is_expression_type() -/
def PyNum.isExprType : PyNum → Bool
  | .exprVal _ _ => true
  | _ => false

/-- pyomo.core.expr.numvalue.value -/
def pyValue : PyNum → Int
  | .native x => x
  | .param _ v => v
  | .exprVal _ v => v

/-- EXPR.evaluate_expression -/
def evaluate_expression : PyNum → Int := pyValue

/-- xpress_persistent._convert_to_const.  The source of the middle branch is
`return EXPR.evaluate_expression(obj_term)`: the name obj_term is not bound in
the function (its only parameter is val) nor at module level, so reaching this
branch raises NameError instead of evaluating val. -/
def _convert_to_const (val : PyNum) : Except PyErr PyNum :=
  if val.isNative then .ok val
  else if val.isExprType then .error (.nameError "obj_term")
  else .ok (.native (pyValue val))

/-- C5: _convert_to_const returns val itself on the native branch and the
extracted value on the fallback branch, but on the expression branch the code
evaluates the unbound name obj_term and so raises NameError instead of
returning the evaluated numerical value of val (here 5). -/
theorem convert_to_const_expr_branch_raises :
    _convert_to_const (PyNum.native 3) = .ok (PyNum.native 3) ∧
    _convert_to_const (PyNum.param 1 4) = .ok (PyNum.native 4) ∧
    _convert_to_const (PyNum.exprVal 0 5) = .error (.nameError "obj_term") ∧
    evaluate_expression (PyNum.exprVal 0 5) = 5 :=
  ⟨rfl, rfl, rfl, rfl⟩

/-- A pyomo Var as the wrapper code interrogates it: domain classification
predicates, fix state, current value, and declared bounds (has_lb/has_ub with
the bound expressions that value() is applied to). -/
structure Var where
  id : Nat
  is_binary : Bool
  is_integer : Bool
  is_continuous : Bool
  is_fixed : Bool
  value : Int
  has_lb : Bool
  lb : PyNum
  has_ub : Bool
  ub : PyNum
  deriving Repr, DecidableEq

/-- A bound value handed to the Xpress API: a finite number, or the vendor
constants -xpress.infinity / xpress.infinity. -/
inductive XB where
  | minf
  | pinf
  | fin (x : Int)
  deriving Repr, DecidableEq

/-- One call forwarded to the vendor (xpress.problem) API, with the arguments
as the wrapper passes them.  Solver variables and solver constraints are their
column/row indices (Nat). -/
inductive XCall where
  | chgbounds (vars : List Nat) (bndtypes : List String) (bnds : List XB)
  | chgcoltype (vars : List Nat) (coltypes : List String)
  | addcols (objx : List PyNum) (mstart : List Nat) (mrwind : List Nat)
      (dmatval : List PyNum) (bdl : List XB) (bdu : List XB)
      (names : List String) (coltypes : List String)
  | getAttrib (args : List PyNum)
  | setControl (args : List PyNum)
  | getControl (args : List PyNum)
  | writeFile (filename : String) (flags : String)
  deriving Repr, DecidableEq

/-- The vendor model handle: the number of columns it holds (addcols appends
one, and the new column gets the next index) and the trace of every API call
the wrapper has forwarded to it, oldest first. -/
structure SolverModel where
  ncols : Nat
  calls : List XCall
  deriving Repr, DecidableEq

/-- First-match lookup in an association list; Python dict assignment is
modelled by consing the new binding in front, so lookups see the update. -/
def lookupA [DecidableEq α] (l : List (α × β)) (k : α) : Option β :=
  (l.find? (fun p => decide (p.1 = k))).map (·.2)

/-- The XpressPersistent wrapper state: the vendor model plus the bookkeeping
containers inherited from the direct/persistent base classes, and the parts of
the pyomo model the excerpted methods mutate (the active objective expression
and the constraint bodies, each kept as a list of coefficient*var terms in the
order they were added). -/
structure XpressState where
  smodel : SolverModel
  pyomo_var_to_solver_var_map : List (Var × Nat)
  solver_var_to_pyomo_var_map : List (Nat × Var)
  referenced_variables : List (Var × Nat)
  pyomo_con_to_solver_con_map : List (Nat × Nat)
  vars_referenced_by_con : List (Nat × List Var)
  obj_expr : List (PyNum × Var)
  con_bodies : List (Nat × List (PyNum × Var))
  deriving Repr, DecidableEq

/-- Forward one API call to the vendor model (trace only; addcols is emitted
through emitAddcols which also bumps the column count). -/
def emit (st : XpressState) (c : XCall) : XpressState :=
  { st with smodel := { st.smodel with calls := st.smodel.calls ++ [c] } }

/-- XpressPersistent._xpress_chgcoltype_from_var: the column-type code for
chgcoltype, testing is_binary, then is_integer, then is_continuous. -/
def _xpress_chgcoltype_from_var (var : Var) : Except PyErr String :=
  if var.is_binary then .ok "B"
  else if var.is_integer then .ok "I"
  else if var.is_continuous then .ok "C"
  else .error (.valueError "Variable domain type is not recognized")

/-- XpressPersistent.update_var.  Returns the post state together with the
exception, if one was raised; mutations performed before a raise persist. -/
def update_var (st : XpressState) (var : Var) : XpressState × Option PyErr :=
  match lookupA st.pyomo_var_to_solver_var_map var with
  | none =>
      (st, some (.valueError "The Var provided to compile_var needs to be added first"))
  | some xpress_var =>
      match _xpress_chgcoltype_from_var var with
      | .error e => (st, some e)
      | .ok qctype =>
          let bnds :=
            if var.is_fixed then (XB.fin var.value, XB.fin var.value)
            else
              ((if var.has_lb then XB.fin (pyValue var.lb) else XB.minf),
               (if var.has_ub then XB.fin (pyValue var.ub) else XB.pinf))
          let st := emit st (.chgbounds [xpress_var, xpress_var] ["L", "U"] [bnds.1, bnds.2])
          let st := emit st (.chgcoltype [xpress_var] [qctype])
          (st, none)

/-- The lower bound update_var is specified to pass. -/
def updateLb (var : Var) : XB :=
  if var.is_fixed then XB.fin var.value
  else if var.has_lb then XB.fin (pyValue var.lb) else XB.minf

/-- The upper bound update_var is specified to pass. -/
def updateUb (var : Var) : XB :=
  if var.is_fixed then XB.fin var.value
  else if var.has_ub then XB.fin (pyValue var.ub) else XB.pinf

/-- The column-type letter for a classified variable, binary before integer
before continuous. -/
def coltypeLetter (var : Var) : String :=
  if var.is_binary then "B" else if var.is_integer then "I" else "C"

/-- A concrete fixed binary variable, used to instantiate theorems. -/
def vFix : Var :=
  { id := 1, is_binary := true, is_integer := false, is_continuous := false,
    is_fixed := true, value := 1, has_lb := true, lb := .native 0,
    has_ub := true, ub := .native 1 }

/-- C4: for a variable already added to the solver whose domain is classified
(binary, integer or continuous), update_var forwards exactly two vendor calls:
chgbounds with lower = upper = the current value when the variable is fixed
and otherwise the declared bounds with the infinities substituted for absent
ones, followed by chgcoltype with B/I/C chosen in that precedence order; it
raises nothing and touches no bookkeeping. -/
theorem update_var_forwards_bounds_and_type (st : XpressState) (var : Var) (xv : Nat)
    (hmap : lookupA st.pyomo_var_to_solver_var_map var = some xv)
    (hdom : var.is_binary = true ∨ var.is_integer = true ∨ var.is_continuous = true) :
    (update_var st var).2 = none ∧
    (update_var st var).1 =
      emit (emit st (.chgbounds [xv, xv] ["L", "U"] [updateLb var, updateUb var]))
        (.chgcoltype [xv] [coltypeLetter var]) := by
  have hty : _xpress_chgcoltype_from_var var = .ok (coltypeLetter var) := by
    unfold _xpress_chgcoltype_from_var coltypeLetter
    by_cases hb : var.is_binary <;> by_cases hi : var.is_integer <;>
      by_cases hc : var.is_continuous <;> simp_all
  unfold update_var updateLb updateUb
  rw [hmap, hty]
  by_cases hf : var.is_fixed <;> simp [hf]

/-- C4 witness: a concrete fixed binary variable already in the map. -/
theorem update_var_forwards_bounds_and_type_witness :
    (update_var
        { smodel := { ncols := 1, calls := [] },
          pyomo_var_to_solver_var_map := [(vFix, 0)],
          solver_var_to_pyomo_var_map := [(0, vFix)],
          referenced_variables := [(vFix, 0)],
          pyomo_con_to_solver_con_map := [], vars_referenced_by_con := [],
          obj_expr := [], con_bodies := [] } vFix).2 = none ∧
    (update_var
        { smodel := { ncols := 1, calls := [] },
          pyomo_var_to_solver_var_map := [(vFix, 0)],
          solver_var_to_pyomo_var_map := [(0, vFix)],
          referenced_variables := [(vFix, 0)],
          pyomo_con_to_solver_con_map := [], vars_referenced_by_con := [],
          obj_expr := [], con_bodies := [] } vFix).1 =
      emit (emit
        { smodel := { ncols := 1, calls := [] },
          pyomo_var_to_solver_var_map := [(vFix, 0)],
          solver_var_to_pyomo_var_map := [(0, vFix)],
          referenced_variables := [(vFix, 0)],
          pyomo_con_to_solver_con_map := [], vars_referenced_by_con := [],
          obj_expr := [], con_bodies := [] }
        (.chgbounds [0, 0] ["L", "U"] [updateLb vFix, updateUb vFix]))
        (.chgcoltype [0] [coltypeLetter vFix]) :=
  update_var_forwards_bounds_and_type _ vFix 0 rfl (Or.inl rfl)

/-- C10: update_var on a variable that was never added raises ValueError and
returns with the wrapper state — the vendor call trace, the vendor model and
every bookkeeping map — exactly as it was. -/
theorem update_var_unknown_var_raises (st : XpressState) (var : Var)
    (hmap : lookupA st.pyomo_var_to_solver_var_map var = none) :
    update_var st var =
      (st, some (.valueError "The Var provided to compile_var needs to be added first")) := by
  unfold update_var
  rw [hmap]

/-- C10 witness: the empty wrapper state and a concrete variable. -/
theorem update_var_unknown_var_raises_witness :
    update_var
      { smodel := { ncols := 0, calls := [] },
        pyomo_var_to_solver_var_map := [], solver_var_to_pyomo_var_map := [],
        referenced_variables := [], pyomo_con_to_solver_con_map := [],
        vars_referenced_by_con := [], obj_expr := [], con_bodies := [] } vFix =
      ({ smodel := { ncols := 0, calls := [] },
         pyomo_var_to_solver_var_map := [], solver_var_to_pyomo_var_map := [],
         referenced_variables := [], pyomo_con_to_solver_con_map := [],
         vars_referenced_by_con := [], obj_expr := [], con_bodies := [] },
       some (.valueError "The Var provided to compile_var needs to be added first")) :=
  update_var_unknown_var_raises _ vFix rfl

/-- XpressPersistent.get_xpress_attribute: returns self._solver_model.getAttrib
applied to the same arguments.  The value the vendor computes is abstracted by
the oracle argument; the forwarded call is recorded in the trace. -/
def get_xpress_attribute (getAttribResult : List PyNum → PyNum) (st : XpressState)
    (args : List PyNum) : PyNum × XpressState :=
  (getAttribResult args, emit st (.getAttrib args))

/-- XpressPersistent.set_xpress_control: calls self._solver_model.setControl. -/
def set_xpress_control (st : XpressState) (args : List PyNum) : XpressState :=
  emit st (.setControl args)

/-- XpressPersistent.get_xpress_control: returns self._solver_model.getControl
applied to the same arguments. -/
def get_xpress_control (getControlResult : List PyNum → PyNum) (st : XpressState)
    (args : List PyNum) : PyNum × XpressState :=
  (getControlResult args, emit st (.getControl args))

/-- XpressPersistent.write: calls self._solver_model.write(filename, flags). -/
def write (st : XpressState) (filename : String) (flags : String) : XpressState :=
  emit st (.writeFile filename flags)

/-- The wrapper-owned bookkeeping of the state: everything except the vendor
call trace. -/
def bookkeeping (st : XpressState) :=
  (st.pyomo_var_to_solver_var_map, st.solver_var_to_pyomo_var_map,
   st.referenced_variables, st.pyomo_con_to_solver_con_map,
   st.vars_referenced_by_con, st.obj_expr, st.con_bodies, st.smodel.ncols)

/-- C2: the four accessor methods are pure pass-throughs: each returns exactly
the vendor result for the unchanged argument tuple, appends exactly the one
forwarded call to the vendor trace, and leaves every piece of the bookkeeping
owned by the wrapper untouched. -/
theorem xpress_passthrough_methods (ga gc : List PyNum → PyNum) (st : XpressState)
    (args : List PyNum) (filename flags : String) :
    (get_xpress_attribute ga st args).1 = ga args ∧
    (get_xpress_attribute ga st args).2.smodel.calls
      = st.smodel.calls ++ [XCall.getAttrib args] ∧
    bookkeeping (get_xpress_attribute ga st args).2 = bookkeeping st ∧
    (get_xpress_control gc st args).1 = gc args ∧
    (get_xpress_control gc st args).2.smodel.calls
      = st.smodel.calls ++ [XCall.getControl args] ∧
    bookkeeping (get_xpress_control gc st args).2 = bookkeeping st ∧
    (set_xpress_control st args).smodel.calls
      = st.smodel.calls ++ [XCall.setControl args] ∧
    bookkeeping (set_xpress_control st args) = bookkeeping st ∧
    (write st filename flags).smodel.calls
      = st.smodel.calls ++ [XCall.writeFile filename flags] ∧
    bookkeeping (write st filename flags) = bookkeeping st :=
  ⟨rfl, rfl, rfl, rfl, rfl, rfl, rfl, rfl, rfl, rfl⟩

/-- The symbol the symbol map assigns to a variable (self._symbol_map.getSymbol
with the default labeler: a name derived from the variable). -/
def symbolOf (var : Var) : String := "x" ++ toString var.id

/-- c._body += val*var: append the term to the constraint body (a constraint
object always has a body; an untracked one starts empty). -/
def addTermToConBody (st : XpressState) (c : Nat) (val : PyNum) (var : Var) :
    XpressState :=
  { st with con_bodies :=
      (c, ((lookupA st.con_bodies c).getD []) ++ [(val, var)]) :: st.con_bodies }

/-- self._vars_referenced_by_con[c].add(var): KeyError when c is not a key,
set-insertion otherwise. -/
def addVarReferencedByCon (st : XpressState) (c : Nat) (var : Var) :
    Except PyErr XpressState :=
  match lookupA st.vars_referenced_by_con c with
  | none => .error .keyError
  | some vs =>
      .ok { st with vars_referenced_by_con :=
        (c, if var ∈ vs then vs else vs ++ [var]) :: st.vars_referenced_by_con }

/-- The objective-processing step of add_column: nothing happens only when
obj_term is the native numeric constant zero; otherwise obj_term*var is added
to the active objective expression. -/
def add_column_obj (st : XpressState) (var : Var) (obj_term : PyNum) : XpressState :=
  if obj_term = PyNum.native 0 then st
  else { st with obj_expr := st.obj_expr ++ [(obj_term, var)] }

/-- The for-loop of add_column over zip(coefficients, constraints): mutate the
constraint body, record var against the constraint, convert the coefficient
(which can raise), look up the solver row; collect coeff_list and constr_list.
Mutations made before a raise persist in the returned state. -/
def add_column_loop (var : Var) (st : XpressState) :
    List (PyNum × Nat) → XpressState × Except PyErr (List PyNum × List Nat)
  | [] => (st, .ok ([], []))
  | (val, c) :: rest =>
      let st := addTermToConBody st c val var
      match addVarReferencedByCon st c var with
      | .error e => (st, .error e)
      | .ok st =>
          match _convert_to_const val with
          | .error e => (st, .error e)
          | .ok cval =>
              match lookupA st.pyomo_con_to_solver_con_map c with
              | none => (st, .error .keyError)
              | some sc =>
                  match add_column_loop var st rest with
                  | (st', .ok (cl, rl)) => (st', .ok (cval :: cl, sc :: rl))
                  | (st', .error e) => (st', .error e)

/-- The tail of add_column after the loop: symbol, column type, bounds with
the fixed-variable override, the single addcols call — whose objx entry is the
raw obj_term, not the converted obj_coef, which the source computes and never
uses — and the three bookkeeping updates for the fresh column. -/
def add_column_finish (st : XpressState) (var : Var) (obj_term : PyNum)
    (coeff_list : List PyNum) (constr_list : List Nat) : XpressState × Option PyErr :=
  let varname := symbolOf var
  match _xpress_chgcoltype_from_var var with
  | .error e => (st, some e)
  | .ok vartype =>
      let lb := if var.has_lb then XB.fin (pyValue var.lb) else XB.minf
      let ub := if var.has_ub then XB.fin (pyValue var.ub) else XB.pinf
      let lb := if var.is_fixed then XB.fin var.value else lb
      let ub := if var.is_fixed then XB.fin var.value else ub
      let xpress_var := st.smodel.ncols
      let st := { st with smodel :=
        { ncols := st.smodel.ncols + 1,
          calls := st.smodel.calls ++
            [XCall.addcols [obj_term] [0, coeff_list.length] constr_list coeff_list
              [lb] [ub] [varname] [vartype]] } }
      let st := { st with
        pyomo_var_to_solver_var_map := (var, xpress_var) :: st.pyomo_var_to_solver_var_map,
        solver_var_to_pyomo_var_map := (xpress_var, var) :: st.solver_var_to_pyomo_var_map,
        referenced_variables := (var, coeff_list.length) :: st.referenced_variables }
      (st, none)

/-- XpressPersistent.add_column: process the objective term, compute obj_coef
(never used afterwards), run the loop, then add the column. -/
def add_column (st : XpressState) (var : Var) (obj_term : PyNum)
    (constraints : List Nat) (coefficients : List PyNum) : XpressState × Option PyErr :=
  let st := add_column_obj st var obj_term
  match _convert_to_const obj_term with
  | .error e => (st, some e)
  | .ok _obj_coef =>
      match add_column_loop var st (coefficients.zip constraints) with
      | (st, .error e) => (st, some e)
      | (st, .ok (coeff_list, constr_list)) =>
          add_column_finish st var obj_term coeff_list constr_list

/-- A concrete continuous unbounded variable. -/
def vCont : Var :=
  { id := 1, is_binary := false, is_integer := false, is_continuous := true,
    is_fixed := false, value := 0, has_lb := false, lb := .native 0,
    has_ub := false, ub := .native 0 }

/-- A concrete wrapper state with one tracked constraint (id 0, solver row 5). -/
def stOneCon : XpressState :=
  { smodel := { ncols := 0, calls := [] },
    pyomo_var_to_solver_var_map := [], solver_var_to_pyomo_var_map := [],
    referenced_variables := [],
    pyomo_con_to_solver_con_map := [(0, 5)],
    vars_referenced_by_con := [(0, [])],
    obj_expr := [], con_bodies := [] }

/-- C1: add_column with a non-native, non-zero objective term (a Param with
value 3) and one constraint adds the term to the pyomo objective, adds the
coefficient term to the constraint body, and forwards one addcols call whose
dmatval entries are the converted constraint coefficients — but whose objx
entry is the raw obj_term object, not the numeric constant that
_convert_to_const produces from it, although the source computes that constant
into obj_coef on the line before the call. -/
theorem add_column_objx_is_raw_obj_term :
    (add_column stOneCon vCont (PyNum.param 7 3) [0] [PyNum.native 2]).2 = none ∧
    (add_column stOneCon vCont (PyNum.param 7 3) [0] [PyNum.native 2]).1.smodel.calls =
      [XCall.addcols [PyNum.param 7 3] [0, 1] [5] [PyNum.native 2]
        [XB.minf] [XB.pinf] ["x1"] ["C"]] ∧
    (add_column stOneCon vCont (PyNum.param 7 3) [0] [PyNum.native 2]).1.obj_expr =
      [(PyNum.param 7 3, vCont)] ∧
    lookupA (add_column stOneCon vCont (PyNum.param 7 3) [0] [PyNum.native 2]).1.con_bodies 0 =
      some [(PyNum.native 2, vCont)] ∧
    _convert_to_const (PyNum.param 7 3) = .ok (PyNum.native 3) ∧
    PyNum.param 7 3 ≠ PyNum.native 3 :=
  ⟨rfl, rfl, rfl, rfl, rfl, by decide⟩

/-- A concrete wrapper state with two tracked constraints. -/
def stTwoCons : XpressState :=
  { smodel := { ncols := 0, calls := [] },
    pyomo_var_to_solver_var_map := [], solver_var_to_pyomo_var_map := [],
    referenced_variables := [],
    pyomo_con_to_solver_con_map := [(0, 5), (1, 6)],
    vars_referenced_by_con := [(0, []), (1, [])],
    obj_expr := [], con_bodies := [] }

/-- C9 counterexample: a successful add_column call with two constraints but a
single coefficient records _referenced_variables[var] = 1, which is not the
number of constraints passed in (2): zip silently truncates to the shorter
list. -/
theorem add_column_refcount_not_constraint_count :
    (add_column stTwoCons vCont (PyNum.native 0) [0, 1] [PyNum.native 2]).2 = none ∧
    lookupA (add_column stTwoCons vCont (PyNum.native 0) [0, 1]
        [PyNum.native 2]).1.referenced_variables vCont = some 1 ∧
    lookupA (add_column stTwoCons vCont (PyNum.native 0) [0, 1]
        [PyNum.native 2]).1.referenced_variables vCont ≠
      some ([0, 1] : List Nat).length :=
  ⟨rfl, rfl, by decide⟩

/-- Lookup through a freshly consed binding. -/
theorem lookupA_cons [DecidableEq α] (k : α) (v : β) (l : List (α × β)) (k' : α) :
    lookupA ((k, v) :: l) k' = if k = k' then some v else lookupA l k' := by
  by_cases h : k = k' <;> simp [lookupA, List.find?_cons, h]

/-- The forward and reverse variable maps determine each other: every binding
of one is mirrored in the other. -/
def mutualInverses (f : List (Var × Nat)) (r : List (Nat × Var)) : Prop :=
  ∀ v s, lookupA f v = some s ↔ lookupA r s = some v

/-- Adding a fresh pair on both sides preserves mutual inversion. -/
theorem mutualInverses_cons (f : List (Var × Nat)) (r : List (Nat × Var))
    (var : Var) (n : Nat) (hinv : mutualInverses f r)
    (hv : lookupA f var = none) (hn : lookupA r n = none) :
    mutualInverses ((var, n) :: f) ((n, var) :: r) := by
  intro v s
  rw [lookupA_cons, lookupA_cons]
  by_cases h1 : var = v
  · subst h1
    by_cases h2 : n = s
    · subst h2; simp
    · simp only [if_pos rfl, if_neg h2]
      constructor
      · intro h; cases h; exact absurd rfl h2
      · intro h
        have hc := (hinv var s).mpr h
        simp [hv] at hc
  · by_cases h2 : n = s
    · subst h2
      simp only [if_neg h1, if_pos rfl]
      constructor
      · intro h
        have hc := (hinv v n).mp h
        simp [hn] at hc
      · intro h; cases h; exact absurd rfl h1
    · simp only [if_neg h1, if_neg h2]
      exact hinv v s

/-- addVarReferencedByCon touches only vars_referenced_by_con. -/
theorem addVarReferencedByCon_ok_core (st st' : XpressState) (c : Nat) (var : Var)
    (h : addVarReferencedByCon st c var = .ok st') :
    st'.pyomo_var_to_solver_var_map = st.pyomo_var_to_solver_var_map ∧
    st'.solver_var_to_pyomo_var_map = st.solver_var_to_pyomo_var_map ∧
    st'.referenced_variables = st.referenced_variables ∧
    st'.pyomo_con_to_solver_con_map = st.pyomo_con_to_solver_con_map ∧
    st'.smodel = st.smodel := by
  unfold addVarReferencedByCon at h
  split at h
  · cases h
  · cases h; exact ⟨rfl, rfl, rfl, rfl, rfl⟩

/-- The add_column loop touches neither the solver model nor the variable
bookkeeping maps: it only mutates constraint bodies and
vars_referenced_by_con. -/
theorem add_column_loop_core (var : Var) (l : List (PyNum × Nat)) :
    ∀ st : XpressState,
      (add_column_loop var st l).1.pyomo_var_to_solver_var_map
          = st.pyomo_var_to_solver_var_map ∧
      (add_column_loop var st l).1.solver_var_to_pyomo_var_map
          = st.solver_var_to_pyomo_var_map ∧
      (add_column_loop var st l).1.referenced_variables = st.referenced_variables ∧
      (add_column_loop var st l).1.smodel = st.smodel := by
  induction l with
  | nil => intro st; exact ⟨rfl, rfl, rfl, rfl⟩
  | cons p rest ih =>
    intro st
    obtain ⟨val, c⟩ := p
    simp only [add_column_loop]
    split
    · exact ⟨rfl, rfl, rfl, rfl⟩
    · rename_i st2 heq
      obtain ⟨h1, h2, h3, h4, h5⟩ := addVarReferencedByCon_ok_core _ _ _ _ heq
      split
      · exact ⟨h1, h2, h3, h5⟩
      · split
        · exact ⟨h1, h2, h3, h5⟩
        · split <;> rename_i hloop
          · obtain ⟨g1, g2, g3, g4⟩ := ih st2
            rw [hloop] at g1 g2 g3 g4
            exact ⟨g1.trans h1, g2.trans h2, g3.trans h3, g4.trans h5⟩
          · obtain ⟨g1, g2, g3, g4⟩ := ih st2
            rw [hloop] at g1 g2 g3 g4
            exact ⟨g1.trans h1, g2.trans h2, g3.trans h3, g4.trans h5⟩

/-- When the loop succeeds, coeff_list has one entry per zipped pair. -/
theorem add_column_loop_ok_length (var : Var) (l : List (PyNum × Nat)) :
    ∀ st st' cl rl, add_column_loop var st l = (st', .ok (cl, rl)) →
      cl.length = l.length := by
  induction l with
  | nil =>
    intro st st' cl rl h
    simp only [add_column_loop, Prod.mk.injEq] at h
    obtain ⟨-, h2⟩ := h
    cases h2
    rfl
  | cons p rest ih =>
    intro st st' cl rl h
    obtain ⟨val, c⟩ := p
    simp only [add_column_loop] at h
    split at h
    · simp at h
    · rename_i st2 heq
      split at h
      · simp at h
      · split at h
        · simp at h
        · split at h <;> rename_i hloop
          · rename_i stf clf rlf
            simp only [Prod.mk.injEq] at h
            obtain ⟨-, h2⟩ := h
            cases h2
            simp [ih st2 stf clf rlf hloop]
          · simp at h

/-- When the variable domain is classified, add_column_finish succeeds and
performs exactly the three bookkeeping cons-updates for the fresh column
(index = the vendor column count before the addcols call). -/
theorem add_column_finish_ok (st : XpressState) (var : Var) (obj_term : PyNum)
    (cl : List PyNum) (rl : List Nat) (ty : String)
    (hty : _xpress_chgcoltype_from_var var = .ok ty) :
    (add_column_finish st var obj_term cl rl).2 = none ∧
    (add_column_finish st var obj_term cl rl).1.pyomo_var_to_solver_var_map
      = (var, st.smodel.ncols) :: st.pyomo_var_to_solver_var_map ∧
    (add_column_finish st var obj_term cl rl).1.solver_var_to_pyomo_var_map
      = (st.smodel.ncols, var) :: st.solver_var_to_pyomo_var_map ∧
    (add_column_finish st var obj_term cl rl).1.referenced_variables
      = (var, cl.length) :: st.referenced_variables := by
  unfold add_column_finish
  rw [hty]
  exact ⟨rfl, rfl, rfl, rfl⟩

/-- The objective step touches only the objective expression. -/
theorem add_column_obj_core (st : XpressState) (var : Var) (t : PyNum) :
    (add_column_obj st var t).pyomo_var_to_solver_var_map
        = st.pyomo_var_to_solver_var_map ∧
    (add_column_obj st var t).solver_var_to_pyomo_var_map
        = st.solver_var_to_pyomo_var_map ∧
    (add_column_obj st var t).referenced_variables = st.referenced_variables ∧
    (add_column_obj st var t).smodel = st.smodel := by
  unfold add_column_obj
  split <;> exact ⟨rfl, rfl, rfl, rfl⟩

/-- C9 (amended): after a successful add_column call on a state whose variable
maps are mutual inverses, where var is not yet mapped and the next vendor
column index is unused, the maps remain mutual inverses, the new entries map
var to the fresh solver column and back, and _referenced_variables[var] equals
the number of zipped (coefficient, constraint) pairs — which is the number of
constraints passed in whenever the two lists have equal length. -/
theorem add_column_bookkeeping_invariant (st : XpressState) (var : Var)
    (obj_term : PyNum) (constraints : List Nat) (coefficients : List PyNum)
    (hinv : mutualInverses st.pyomo_var_to_solver_var_map st.solver_var_to_pyomo_var_map)
    (hvar : lookupA st.pyomo_var_to_solver_var_map var = none)
    (hfresh : lookupA st.solver_var_to_pyomo_var_map st.smodel.ncols = none)
    (hok : (add_column st var obj_term constraints coefficients).2 = none) :
    lookupA (add_column st var obj_term constraints coefficients).1.pyomo_var_to_solver_var_map
        var = some st.smodel.ncols ∧
    lookupA (add_column st var obj_term constraints coefficients).1.solver_var_to_pyomo_var_map
        st.smodel.ncols = some var ∧
    mutualInverses
      (add_column st var obj_term constraints coefficients).1.pyomo_var_to_solver_var_map
      (add_column st var obj_term constraints coefficients).1.solver_var_to_pyomo_var_map ∧
    lookupA (add_column st var obj_term constraints coefficients).1.referenced_variables
        var = some (coefficients.zip constraints).length ∧
    (coefficients.length = constraints.length →
      lookupA (add_column st var obj_term constraints coefficients).1.referenced_variables
          var = some constraints.length) := by
  obtain ⟨ho1, ho2, ho3, ho4⟩ := add_column_obj_core st var obj_term
  simp only [add_column] at hok ⊢
  cases hcv : _convert_to_const obj_term with
  | error e => rw [hcv] at hok; simp at hok
  | ok oc =>
    dsimp only
    cases hloop : add_column_loop var (add_column_obj st var obj_term)
        (coefficients.zip constraints) with
    | mk st2 res =>
      rw [hcv, hloop] at hok
      cases res with
      | error e => simp at hok
      | ok pr =>
        obtain ⟨cl, rl⟩ := pr
        dsimp only at hok ⊢
        obtain ⟨g1, g2, g3, g4⟩ :=
          add_column_loop_core var (coefficients.zip constraints) (add_column_obj st var obj_term)
        rw [hloop] at g1 g2 g3 g4
        dsimp only at g1 g2 g3 g4
        have hcl : cl.length = (coefficients.zip constraints).length :=
          add_column_loop_ok_length var (coefficients.zip constraints) _ _ _ _ hloop
        cases hty : _xpress_chgcoltype_from_var var with
        | error e =>
          unfold add_column_finish at hok
          rw [hty] at hok
          simp at hok
        | ok ty =>
          obtain ⟨-, hf1, hf2, hf3⟩ :=
            add_column_finish_ok st2 var obj_term cl rl ty hty
          rw [hf1, hf2, hf3]
          have hm2 : st2.smodel.ncols = st.smodel.ncols := by
            rw [g4, ho4]
          have hp2 : st2.pyomo_var_to_solver_var_map = st.pyomo_var_to_solver_var_map := by
            rw [g1, ho1]
          have hr2 : st2.solver_var_to_pyomo_var_map = st.solver_var_to_pyomo_var_map := by
            rw [g2, ho2]
          rw [hm2, hp2, hr2]
          refine ⟨?_, ?_, ?_, ?_, ?_⟩
          · rw [lookupA_cons, if_pos rfl]
          · rw [lookupA_cons, if_pos rfl]
          · exact mutualInverses_cons _ _ _ _ hinv hvar hfresh
          · rw [lookupA_cons, if_pos rfl, hcl]
          · intro hlen
            rw [lookupA_cons, if_pos rfl, hcl]
            simp [List.length_zip, hlen]

/-- C9 witness: the concrete one-constraint state, an unmapped continuous
variable, matching list lengths. -/
theorem add_column_bookkeeping_invariant_witness :
    lookupA (add_column stOneCon vCont (PyNum.native 1) [0]
        [PyNum.native 2]).1.pyomo_var_to_solver_var_map vCont
      = some stOneCon.smodel.ncols ∧
    lookupA (add_column stOneCon vCont (PyNum.native 1) [0]
        [PyNum.native 2]).1.solver_var_to_pyomo_var_map stOneCon.smodel.ncols
      = some vCont ∧
    mutualInverses
      (add_column stOneCon vCont (PyNum.native 1) [0]
        [PyNum.native 2]).1.pyomo_var_to_solver_var_map
      (add_column stOneCon vCont (PyNum.native 1) [0]
        [PyNum.native 2]).1.solver_var_to_pyomo_var_map ∧
    lookupA (add_column stOneCon vCont (PyNum.native 1) [0]
        [PyNum.native 2]).1.referenced_variables vCont
      = some (([PyNum.native 2] : List PyNum).zip ([0] : List Nat)).length ∧
    (([PyNum.native 2] : List PyNum).length = ([0] : List Nat).length →
      lookupA (add_column stOneCon vCont (PyNum.native 1) [0]
          [PyNum.native 2]).1.referenced_variables vCont
        = some ([0] : List Nat).length) :=
  add_column_bookkeeping_invariant stOneCon vCont (PyNum.native 1) [0] [PyNum.native 2]
    (by intro v s; simp [lookupA, stOneCon]) rfl rfl rfl

/-- What SolverFactory(val) yields, as far as the two isinstance checks in
_valid_solvers discriminate it: an UnknownSolver, a PersistentSolver, or any
other solver object (the APPSI persistent solvers fall in the last class, as
they do not derive from PersistentSolver). -/
inductive SolverClass where
  | unknownSolver
  | persistentSolver
  | otherSolver
  deriving Repr, DecidableEq

/-- gdpopt.config_options._valid_solvers; the SolverFactory is abstracted as a
classification of solver names. -/
def _valid_solvers (factory : String → SolverClass) (val : String) :
    Except PyErr String :=
  match factory val with
  | .unknownSolver => .error (.valueError "Expected a valid name for a solver")
  | .persistentSolver =>
      .error (.valueError "GDPopt does not currently support the solver")
  | .otherSolver => .ok val

/-- C3: _valid_solvers raises ValueError exactly when the factory yields an
UnknownSolver or a PersistentSolver, and in every other case returns val
unchanged. -/
theorem valid_solvers_spec (factory : String → SolverClass) (val : String) :
    ((∃ m, _valid_solvers factory val = .error (.valueError m)) ↔
      factory val = .unknownSolver ∨ factory val = .persistentSolver) ∧
    ((∃ m, _valid_solvers factory val = .error (.valueError m)) ∨
      _valid_solvers factory val = .ok val) := by
  unfold _valid_solvers
  cases h : factory val <;> simp

/-- The kind of a declared config entry. -/
inductive CKind where
  | valueK
  | listK
  | blockK
  deriving Repr, DecidableEq

/-- The default values appearing in the embedded config declarations. -/
inductive CDefault where
  | str (s : String)
  | int (n : Int)
  | boolv (b : Bool)
  | pyNone
  | doNothing
  | restoreVars
  | noDefault
  deriving Repr, DecidableEq

/-- The validation domains appearing in the embedded config declarations. -/
inductive CDomain where
  | validSolversDomain
  | inValidInitStrategyKeys
  | nonNegativeFloat
  | nonNegativeInt
  | positiveInt
  | boolDomain
  | noDomain
  deriving Repr, DecidableEq

/-- One CONFIG.declare entry: its constructor kind, default and domain. -/
structure ConfigDecl where
  kind : CKind
  cdefault : CDefault
  cdomain : CDomain
  deriving Repr, DecidableEq

/-- gdpopt.config_options._add_OA_configs: the declarations, in source
order. -/
def _add_OA_configs (CONFIG : List (String × ConfigDecl)) :
    List (String × ConfigDecl) :=
  CONFIG ++
    [("init_strategy", ⟨.valueK, .str "set_covering", .inValidInitStrategyKeys⟩),
     ("custom_init_disjuncts", ⟨.listK, .pyNone, .noDomain⟩),
     ("max_slack", ⟨.valueK, .int 1000, .nonNegativeFloat⟩),
     ("OA_penalty_factor", ⟨.valueK, .int 1000, .nonNegativeFloat⟩),
     ("set_cover_iterlim", ⟨.valueK, .int 8, .nonNegativeInt⟩),
     ("master_problem_transformation", ⟨.valueK, .str "gdp.bigm", .noDomain⟩),
     ("call_before_master_solve", ⟨.valueK, .doNothing, .noDomain⟩),
     ("call_after_master_solve", ⟨.valueK, .doNothing, .noDomain⟩),
     ("subproblem_initialization_method", ⟨.valueK, .restoreVars, .noDomain⟩),
     ("call_before_subproblem_solve", ⟨.valueK, .doNothing, .noDomain⟩),
     ("call_after_subproblem_solve", ⟨.valueK, .doNothing, .noDomain⟩),
     ("call_after_subproblem_feasible", ⟨.valueK, .doNothing, .noDomain⟩),
     ("round_discrete_vars", ⟨.valueK, .boolv true, .noDomain⟩),
     ("force_subproblem_nlp", ⟨.valueK, .boolv false, .noDomain⟩),
     ("mip_presolve", ⟨.valueK, .boolv true, .boolDomain⟩),
     ("subproblem_presolve", ⟨.valueK, .boolv true, .boolDomain⟩),
     ("max_fbbt_iterations", ⟨.valueK, .int 3, .positiveInt⟩),
     ("tighten_nlp_var_bounds", ⟨.valueK, .boolv false, .boolDomain⟩),
     ("calc_disjunctive_bounds", ⟨.valueK, .boolv false, .boolDomain⟩),
     ("obbt_disjunctive_bounds", ⟨.valueK, .boolv false, .boolDomain⟩)]

/-- gdpopt.config_options._add_mip_solver_configs. -/
def _add_mip_solver_configs (CONFIG : List (String × ConfigDecl)) :
    List (String × ConfigDecl) :=
  CONFIG ++
    [("mip_solver", ⟨.valueK, .str "gurobi", .validSolversDomain⟩),
     ("mip_solver_args", ⟨.blockK, .noDefault, .noDomain⟩)]

/-- gdpopt.config_options._add_nlp_solver_configs. -/
def _add_nlp_solver_configs (CONFIG : List (String × ConfigDecl)) :
    List (String × ConfigDecl) :=
  CONFIG ++
    [("nlp_solver", ⟨.valueK, .str "ipopt", .validSolversDomain⟩),
     ("nlp_solver_args", ⟨.blockK, .noDefault, .noDomain⟩),
     ("minlp_solver", ⟨.valueK, .str "baron", .validSolversDomain⟩),
     ("minlp_solver_args", ⟨.blockK, .noDefault, .noDomain⟩),
     ("local_minlp_solver", ⟨.valueK, .str "bonmin", .validSolversDomain⟩),
     ("local_minlp_solver_args", ⟨.blockK, .noDefault, .noDomain⟩)]

/-- C7: after the GDPopt configuration builders run, mip_solver, nlp_solver,
minlp_solver and local_minlp_solver default to gurobi, ipopt, baron and bonmin
with _valid_solvers as their domain, and init_strategy defaults to
set_covering with the keys of valid_init_strategies as its domain. -/
theorem gdpopt_solver_defaults :
    lookupA (_add_mip_solver_configs []) "mip_solver"
      = some ⟨.valueK, .str "gurobi", .validSolversDomain⟩ ∧
    lookupA (_add_nlp_solver_configs []) "nlp_solver"
      = some ⟨.valueK, .str "ipopt", .validSolversDomain⟩ ∧
    lookupA (_add_nlp_solver_configs []) "minlp_solver"
      = some ⟨.valueK, .str "baron", .validSolversDomain⟩ ∧
    lookupA (_add_nlp_solver_configs []) "local_minlp_solver"
      = some ⟨.valueK, .str "bonmin", .validSolversDomain⟩ ∧
    lookupA (_add_OA_configs []) "init_strategy"
      = some ⟨.valueK, .str "set_covering", .inValidInitStrategyKeys⟩ :=
  ⟨rfl, rfl, rfl, rfl, rfl⟩

/-- The solver classes the appsi plugin module imports and registers. -/
inductive AppsiSolverCls where
  | Gurobi
  | Cplex
  | Ipopt
  | Cbc
  | Highs
  deriving Repr, DecidableEq

/-- The extension builder classes registered with ExtensionBuilderFactory. -/
inductive ExtBuilderCls where
  | AppsiBuilder
  deriving Repr, DecidableEq

/-- The two registries that appsi.plugins.load mutates. -/
structure PluginRegistry where
  extensionBuilders : List (String × ExtBuilderCls)
  solverFactoryEntries : List (String × AppsiSolverCls)
  deriving Repr, DecidableEq

/-- appsi.plugins.load: one ExtensionBuilderFactory.register and five
SolverFactory.register calls, in source order. -/
def load (r : PluginRegistry) : PluginRegistry :=
  { extensionBuilders := r.extensionBuilders ++ [("appsi", .AppsiBuilder)],
    solverFactoryEntries := r.solverFactoryEntries ++
      [("gurobi", .Gurobi), ("cplex", .Cplex), ("ipopt", .Ipopt),
       ("cbc", .Cbc), ("highs", .Highs)] }

/-- C8: load registers the AppsiBuilder under appsi and exactly five solver
classes under gurobi, cplex, ipopt, cbc and highs, bound to the Gurobi, Cplex,
Ipopt, Cbc and Highs classes respectively. -/
theorem appsi_load_registrations (r : PluginRegistry) :
    (load r).extensionBuilders
      = r.extensionBuilders ++ [("appsi", ExtBuilderCls.AppsiBuilder)] ∧
    (load r).solverFactoryEntries
      = r.solverFactoryEntries ++
        [("gurobi", AppsiSolverCls.Gurobi), ("cplex", AppsiSolverCls.Cplex),
         ("ipopt", AppsiSolverCls.Ipopt), ("cbc", AppsiSolverCls.Cbc),
         ("highs", AppsiSolverCls.Highs)] ∧
    (load r).solverFactoryEntries.length = r.solverFactoryEntries.length + 5 :=
  ⟨rfl, rfl, by simp [load]⟩

/-- A component of a pyomo model, as far as ScipyRootSolver.solve
distinguishes them: an Objective (active or not) or anything else. -/
inductive Component where
  | objectiveComp (active : Bool)
  | otherComp
  deriving Repr, DecidableEq

/-- The pyomo model: its declared components by name. -/
structure PModel where
  components : List (String × Component)
  deriving Repr, DecidableEq

/-- model.component_data_objects(Objective, active=True) -/
def activeObjectives (m : PModel) : List (String × Component) :=
  m.components.filter (fun p => decide (p.2 = Component.objectiveComp true))

namespace ScipyRootSolver

/-- ScipyRootSolver.solve.  When the model has no active objective, the source
computes obj_name = unique_component_name(model, ...) and then runs
obj = pyo.Objective(expr=0.0): the module imports Objective but never binds
the name pyo, so this line raises NameError; the following
model.add_component(name, obj) would equally raise NameError, since the fresh
identifier was bound to obj_name, not name.  No component is ever added, and
the del_component cleanup is never reached.  With at least one active
objective the branch is skipped and the component dictionary is untouched. -/
def solve (m : PModel) : PModel × Option PyErr :=
  let active_objs := activeObjectives m
  if active_objs.length = 0 then
    (m, some (.nameError "pyo"))
  else
    (m, none)

end ScipyRootSolver

/-- C6: on a model with no active objective, solve raises NameError on the
unbound name pyo instead of adding a temporary zero objective and deleting it
afterwards; on a model that has an active objective it returns normally with
the component set unchanged. -/
theorem scipy_solve_no_objective_name_error :
    (ScipyRootSolver.solve { components := [] }).2
      = some (.nameError "pyo") ∧
    (ScipyRootSolver.solve { components := [] }).1 = { components := [] } ∧
    (ScipyRootSolver.solve
        { components := [("obj", Component.objectiveComp true)] })
      = ({ components := [("obj", Component.objectiveComp true)] }, none) :=
  ⟨rfl, rfl, rfl⟩

end Pyomo
